import Mathlib

/-!
Verification of the ProtoRPC python sources (`protorpc/transport.py`,
`protorpc/remote.py`, `protorpc/descriptor.py`) against their
natural-language specification.

The python code is shallowly embedded: mutable objects become explicit
records, mutating methods become functions from the old record to the new
one, and a raised python exception becomes an `Except.error` value.  A
method that may both mutate its receiver and raise returns a pair of the
raise/return outcome together with the receiver as left behind by the
mutations already performed (python exceptions do not roll anything back).

Several names referenced by `transport.py` live in a version of
`protorpc/remote.py` and `protorpc/messages.py` that is not among the
sources (the sources hold an older `remote.py`): `RpcState`, `RpcStatus`,
`check_rpc_status` and the message machinery `check_initialized`.  Those
are modelled from the specification and are marked as such in their doc
comments.
-/

namespace ProtoRpc

/-- Modelled from the spec: `remote.RpcState` (not among the sources; only the
older `remote.py` is).  Spec section 4.4: states RUNNING (initial) and the
terminal states OK, APPLICATION_ERROR, SERVER_ERROR, NETWORK_ERROR,
REQUEST_ERROR, METHOD_NOT_FOUND_ERROR. -/
inductive RpcState where
  | RUNNING
  | OK
  | APPLICATION_ERROR
  | SERVER_ERROR
  | NETWORK_ERROR
  | REQUEST_ERROR
  | METHOD_NOT_FOUND_ERROR
deriving DecidableEq, Repr

/-- Printed name of an `RpcState` value, as interpolated by python into
error messages such as (transport.py line 112) the `RpcStateError` text. -/
def RpcState.name : RpcState → String
  | .RUNNING => "RUNNING"
  | .OK => "OK"
  | .APPLICATION_ERROR => "APPLICATION_ERROR"
  | .SERVER_ERROR => "SERVER_ERROR"
  | .NETWORK_ERROR => "NETWORK_ERROR"
  | .REQUEST_ERROR => "REQUEST_ERROR"
  | .METHOD_NOT_FOUND_ERROR => "METHOD_NOT_FOUND_ERROR"

/-- Modelled from the spec: `remote.RpcStatus` (not among the sources).  Spec
section 6: a status message carries state, optional error_message and
optional error_name; `state` is its only required field (an unset `state`
makes the message uninitialized, compare transport_test.py
testSetUninitializedStatus). -/
structure RpcStatus where
  state : Option RpcState
  error_message : Option String
  error_name : Option String
deriving DecidableEq, Repr

/-- Python exceptions raised by the embedded code. -/
inductive PyErr where
  | rpcStateError (msg : String)
  | typeError (msg : String)
  | validationError (msg : String)
  | attributeError (name : String)
  | serviceDefinitionError (msg : String)
  | invalidRequestError (msg : String)
  | invalidResponseError (msg : String)
  | serverError (error_message : Option String) (error_name : Option String)
  | networkError (error_message : Option String) (error_name : Option String)
  | applicationError (error_message : Option String) (error_name : Option String)
  | requestError (error_message : Option String) (error_name : Option String)
  | methodNotFoundError (error_message : Option String) (error_name : Option String)
deriving DecidableEq, Repr

/-- A python value as seen by `Rpc.set_response` (transport.py line 120):
either an instance of `messages.Message` carrying a payload of type `Msg`,
or some non-message value. -/
inductive PyValue (Msg : Type) where
  | message (m : Msg)
  | nonMessage
deriving DecidableEq, Repr

/-- The client side RPC object, transport.py lines 53 to 72: fields
`__request`, `__response`, `__state`, `__error_message`, `__error_name`. -/
structure Rpc (Req Msg : Type) where
  request : Req
  response : Option Msg
  state : RpcState
  error_message : Option String
  error_name : Option String
deriving DecidableEq, Repr

/-- Constructor `Rpc.__init__` (transport.py lines 61 to 71): response is
None, state is RUNNING, error message and name are None. -/
def Rpc.init (request : Req) : Rpc Req Msg :=
  { request := request
    response := none
    state := RpcState.RUNNING
    error_message := none
    error_name := none }

/-- Private method `Rpc.__set_state` (transport.py lines 110 to 118).  Raises
`RpcStateError` when the RPC is not RUNNING or when the target state is
RUNNING; otherwise installs the new state and error fields. -/
def Rpc.setState (state : RpcState) (error_message error_name : Option String)
    (r : Rpc Req Msg) : Except PyErr Unit × Rpc Req Msg :=
  if r.state ≠ RpcState.RUNNING then
    (Except.error (PyErr.rpcStateError
      ("RPC must be in RUNNING state to change to " ++ state.name)), r)
  else if state = RpcState.RUNNING then
    (Except.error (PyErr.rpcStateError ("RPC is already in RUNNING state")), r)
  else
    (Except.ok (),
     { r with state := state, error_message := error_message,
              error_name := error_name })

/-- Method `Rpc.set_response` (transport.py lines 120 to 126).  A non-message
argument raises `TypeError` before anything is written; otherwise the
response attribute is assigned first and only then does `__set_state`
run, so a state error leaves the new response behind. -/
def Rpc.set_response (v : PyValue Msg) (r : Rpc Req Msg) :
    Except PyErr Unit × Rpc Req Msg :=
  match v with
  | PyValue.nonMessage =>
      (Except.error (PyErr.typeError ("Expected Message type")), r)
  | PyValue.message m =>
      Rpc.setState RpcState.OK none none { r with response := some m }

/-- Method `Rpc.set_status` (transport.py lines 128 to 130).
`status.check_initialized()` runs first: an `RpcStatus` with no state set
raises `ValidationError` before any transition is attempted; otherwise the
state carried by the status is installed through `__set_state`. -/
def Rpc.set_status (status : RpcStatus) (r : Rpc Req Msg) :
    Except PyErr Unit × Rpc Req Msg :=
  match status.state with
  | none =>
      (Except.error (PyErr.validationError
        ("Message RpcStatus is missing required field state")), r)
  | some st => Rpc.setState st status.error_message status.error_name r

/-- Method `Rpc.wait` (transport.py lines 101 to 104), instrumented:
`_wait_impl` (here the parameter `impl`, the blocking implementation a
transport installs) runs only when the state is RUNNING.  The second
component counts how many times `_wait_impl` was invoked. -/
def Rpc.wait (impl : Rpc Req Msg → Rpc Req Msg) (r : Rpc Req Msg) :
    Rpc Req Msg × Nat :=
  if r.state = RpcState.RUNNING then (impl r, 1) else (r, 0)

/-- Property `Rpc.response` (transport.py lines 78 to 82): waits, then reads
the response attribute.  Returns the value read and the number of
`_wait_impl` invocations performed by the access. -/
def Rpc.response_prop (impl : Rpc Req Msg → Rpc Req Msg) (r : Rpc Req Msg) :
    Option Msg × Nat :=
  let w := Rpc.wait impl r
  (w.1.response, w.2)

/-- Property `Rpc.error_message` (transport.py lines 89 to 93): waits, then
reads the error message attribute. -/
def Rpc.error_message_prop (impl : Rpc Req Msg → Rpc Req Msg)
    (r : Rpc Req Msg) : Option String × Nat :=
  let w := Rpc.wait impl r
  (w.1.error_message, w.2)

/-- Property `Rpc.error_name` (transport.py lines 95 to 99): waits, then
reads the error name attribute. -/
def Rpc.error_name_prop (impl : Rpc Req Msg → Rpc Req Msg)
    (r : Rpc Req Msg) : Option String × Nat :=
  let w := Rpc.wait impl r
  (w.1.error_name, w.2)

/-! ### Messages and `Transport.send_rpc` (transport.py lines 133 to 186)

`protorpc/messages.py` is not among the sources; the small part of it
that `Transport.send_rpc` depends on, `Message.check_initialized`, is
modelled from the spec. -/

/-- One field of a message instance: its name, whether the field was
declared required, and its current value (`none` when unset). -/
structure MessageField (V : Type) where
  name : String
  required : Bool
  value : Option V
deriving DecidableEq, Repr

/-- A message instance as a record of its fields. -/
structure MessageValue (V : Type) where
  fields : List (MessageField V)
deriving DecidableEq, Repr

/-- True when every required field of the message has a value. -/
def MessageValue.isInitialized (m : MessageValue V) : Bool :=
  m.fields.all (fun f => !f.required || f.value.isSome)

/-- Modelled from the spec: `messages.Message.check_initialized`
(`messages.py` is not among the sources).  Spec section 4.4: "validates
the request is fully populated (all required fields set)"; raises a
validation error naming the first missing required field otherwise. -/
def MessageValue.check_initialized (m : MessageValue V) : Except PyErr Unit :=
  match m.fields.find? (fun f => f.required && f.value.isNone) with
  | some f =>
      Except.error (PyErr.validationError
        ("Message is missing required field " ++ f.name))
  | none => Except.ok ()

/-- Operations a transport performs; used to observe whether the backend
call-start operation ran. -/
inductive TransportOp where
  | startRpc
deriving DecidableEq, Repr

/-- Method `Transport.send_rpc` (transport.py lines 159 to 173):
`request.check_initialized()` runs first, then `self._start_rpc(remote_info,
request)` produces the `Rpc`.  The second component records which backend
operations ran; `_start_rpc` (the parameter `start`) is where any network
contact would happen, so an empty trace means the network was never
touched. -/
def Transport.send_rpc (start : MessageValue V → Rpc (MessageValue V) Msg)
    (request : MessageValue V) :
    Except PyErr (Rpc (MessageValue V) Msg) × List TransportOp :=
  match request.check_initialized with
  | Except.error e => (Except.error e, [])
  | Except.ok () => (Except.ok (start request), [TransportOp.startRpc])

/-! ### `HttpTransport`, urllib request cycle (transport.py lines 188 to 355) -/

/-- The pluggable protocol (codec) capability, spec section 6: a content
type string together with decoders.  `decodeRpcStatus` stands for
`protocol.decode_message(remote.RpcStatus, content)`; a decode failure
(any exception, caught at transport.py line 211) is `none`. -/
structure Protocol (Msg : Type) where
  CONTENT_TYPE : String
  decodeRpcStatus : String → Option RpcStatus
  decodeResponse : String → Except PyErr Msg

/-- Modelled from the spec: `remote.check_rpc_status` (not among the
sources; referenced at transport.py line 218, whose comment reads "Will
raise exception if rpc_status is in an error state").  Spec section 7: an
error state maps to an exception carrying that state's message and name;
a non-error state raises nothing. -/
def check_rpc_status (st : RpcStatus) : Except PyErr Unit :=
  match st.state with
  | some RpcState.APPLICATION_ERROR =>
      Except.error (PyErr.applicationError st.error_message st.error_name)
  | some RpcState.SERVER_ERROR =>
      Except.error (PyErr.serverError st.error_message st.error_name)
  | some RpcState.NETWORK_ERROR =>
      Except.error (PyErr.networkError st.error_message st.error_name)
  | some RpcState.REQUEST_ERROR =>
      Except.error (PyErr.requestError st.error_message st.error_name)
  | some RpcState.METHOD_NOT_FOUND_ERROR =>
      Except.error (PyErr.methodNotFoundError st.error_message st.error_name)
  | some RpcState.OK => Except.ok ()
  | some RpcState.RUNNING => Except.ok ()
  | none => Except.ok ()

/-- Method `HttpTransport.__HttpRequest._http_error_to_exception`
(transport.py lines 206 to 218).  When the error body's content type is
the protocol's own content type and the given content decodes as an
`RpcStatus`, `check_rpc_status` runs (and raises for an error state); a
decode failure only logs a warning; any other content type does
nothing. -/
def http_error_to_exception (protocol : Protocol Msg)
    (content_type : Option String) (content : String) : Except PyErr Unit :=
  if content_type = some protocol.CONTENT_TYPE then
    match protocol.decodeRpcStatus content with
    | none => Except.ok ()
    | some st => check_rpc_status st
  else Except.ok ()

/-- Outcome of `urllib2.urlopen` for one request: a successful response
body, an `urllib2.HTTPError` (code, reason text `msg`, content-type
header, body), or an `urllib2.URLError` with a reason. -/
inductive UrlOpenResult where
  | success (body : String)
  | httpError (code : Nat) (msg : String) (content_type : Option String)
      (body : String)
  | urlError (reason : String)
deriving DecidableEq, Repr

/-- Method `HttpTransport.__UrllibRequest.get_response` (transport.py lines
286 to 307).  On an `HTTPError` with code at least 400 it first runs
`_http_error_to_exception` on the header content type and the error's
`msg` text (note: not on the body), letting any exception it raises
propagate; if that returns, `remote.ServerError(err.msg)` is raised.  On a
`URLError`, `remote.NetworkError` is raised with the error's reason. -/
def UrllibRequest.get_response (protocol : Protocol Msg)
    (result : UrlOpenResult) : Except PyErr String :=
  match result with
  | UrlOpenResult.success body => Except.ok body
  | UrlOpenResult.httpError code msg content_type _body =>
      if code ≥ 400 then
        match http_error_to_exception protocol content_type msg with
        | Except.error e => Except.error e
        | Except.ok () => Except.error (PyErr.serverError (some msg) none)
      else Except.error (PyErr.serverError (some msg) none)
  | UrlOpenResult.urlError reason =>
      Except.error (PyErr.networkError (some reason) none)

/-- The closure `wait_impl` installed by `HttpTransport._start_rpc`
(transport.py lines 346 to 353): get the encoded response, decode it,
and call `rpc.set_response` on the decoded message.  Any exception along
the way propagates out of the wait; the `Rpc` is returned only on
success. -/
def http_wait_impl (protocol : Protocol Msg) (result : UrlOpenResult)
    (rpc : Rpc Req Msg) : Except PyErr (Rpc Req Msg) :=
  match UrllibRequest.get_response protocol result with
  | Except.error e => Except.error e
  | Except.ok encoded =>
      match protocol.decodeResponse encoded with
      | Except.error e => Except.error e
      | Except.ok response =>
          match Rpc.set_response (PyValue.message response) rpc with
          | (Except.ok (), rpc) => Except.ok rpc
          | (Except.error e, _) => Except.error e

/-- `Rpc.wait` as observed on an `Rpc` produced by
`HttpTransport._start_rpc` (transport.py lines 101 to 104 together with
lines 327 to 355): when the state is RUNNING the installed `wait_impl`
runs and its exceptions propagate to the caller of `wait`. -/
def http_rpc_wait (protocol : Protocol Msg) (result : UrlOpenResult)
    (rpc : Rpc Req Msg) : Except PyErr (Rpc Req Msg) :=
  if rpc.state = RpcState.RUNNING then http_wait_impl protocol result rpc
  else Except.ok rpc

/-- `HttpTransport._start_rpc` (transport.py lines 327 to 355) builds the
`Rpc` over the request; the fresh object is `Rpc.init request` in state
RUNNING with `wait_impl` installed. -/
def HttpTransport.start_rpc (request : Req) : Rpc Req Msg :=
  Rpc.init request

/-! ### `remote.py`: the method decorator and `invoke_remote_method`
(remote.py lines 204 to 298) -/

/-- A python object as seen by `isinstance`: `ancestry` is the object's
class ancestry, most derived class name first (so `ancestry.head?` is
`type(obj).__name__`); `val` is an abstract payload telling objects
apart. -/
structure PyObj where
  ancestry : List String
  val : Nat
deriving DecidableEq, Repr

/-- Python `isinstance(obj, cls)`: true when `cls` is the object's own
class or any of its base classes. -/
def PyObj.isinstance (obj : PyObj) (cls : String) : Bool :=
  cls ∈ obj.ancestry

/-- Python `type(obj).__name__`. -/
def PyObj.typeName (obj : PyObj) : String :=
  obj.ancestry.headD "object"

/-- Remote-method metadata `_RemoteMethodInfo` (remote.py lines 152 to
201), with the request and response types by class name. -/
structure RemoteMethodInfo where
  request_type : String
  response_type : String
deriving DecidableEq, Repr

/-- The wrapper `invoke_remote_method` produced by the `method` decorator
(remote.py lines 252 to 288), instrumented: the second component counts
how often the wrapped user implementation `impl` ran.  The request must
satisfy `isinstance` of the declared request type before `impl` runs,
else `InvalidRequestError`; the value `impl` returns must satisfy
`isinstance` of the declared response type, else `InvalidResponseError`. -/
def invoke_remote_method (info : RemoteMethodInfo) (method_name : String)
    (impl : PyObj → PyObj → PyObj) (service_instance request : PyObj) :
    Except PyErr PyObj × Nat :=
  if ¬ request.isinstance info.request_type then
    (Except.error (PyErr.invalidRequestError
      ("Method " ++ service_instance.typeName ++ "." ++ method_name ++
       " expected request type " ++ info.request_type ++ ", received " ++
       request.typeName)), 0)
  else
    let response := impl service_instance request
    if ¬ response.isinstance info.response_type then
      (Except.error (PyErr.invalidResponseError
        ("Method " ++ service_instance.typeName ++ "." ++ method_name ++
         " expected response type " ++ info.response_type ++ ", sent " ++
         response.typeName)), 1)
    else (Except.ok response, 1)

/-! ### `_ServiceClass.__new__`: overriding inherited remote methods
(remote.py lines 483 to 521) -/

/-- A class-dictionary attribute value as the metaclass classifies it:
a callable already carrying remote-method metadata (decorated), a plain
callable, or a non-callable value. -/
inductive AttrValue where
  | remoteMethod (info : RemoteMethodInfo)
  | plainMethod
  | nonCallable
deriving DecidableEq, Repr

/-- The body of the loop in `_ServiceClass.__new__` (remote.py lines 500 to
519) for one attribute of the new class dictionary.  When the attribute
overrides an inherited remote method: a non-callable raises; a value that
itself carries remote metadata raises (whatever its declared types);
otherwise the plain callable is re-wrapped with the parent's request and
response types. -/
def processOverride (clsName : String)
    (baseMethods : List (String × RemoteMethodInfo)) :
    String × AttrValue → Except PyErr (String × AttrValue)
  | (attrName, v) =>
    match List.lookup attrName baseMethods with
    | none => Except.ok (attrName, v)
    | some baseInfo =>
      match v with
      | AttrValue.nonCallable =>
          Except.error (PyErr.serviceDefinitionError
            ("Must override " ++ attrName ++ " in " ++ clsName ++
             " with a method."))
      | AttrValue.remoteMethod _ =>
          Except.error (PyErr.serviceDefinitionError
            ("Do not use remote decorator when overloading remote method " ++
             attrName ++ " on service " ++ clsName ++ "."))
      | AttrValue.plainMethod =>
          Except.ok (attrName, AttrValue.remoteMethod baseInfo)

/-- `_ServiceClass.__new__` (remote.py lines 483 to 521): every attribute of
the new class dictionary is run through the override check, the first
failure aborting class creation. -/
def serviceClassNew (clsName : String)
    (baseMethods : List (String × RemoteMethodInfo))
    (dct : List (String × AttrValue)) :
    Except PyErr (List (String × AttrValue)) :=
  dct.mapM (processOverride clsName baseMethods)

/-! ### `_ServiceClass.__init__` and `all_remote_methods`
(remote.py lines 523 to 571 and 663 to 672) -/

/-- Python dict assignment `d[k] = v`: replaces the binding of an existing
key, otherwise adds one. -/
def dictInsert (k : String) (v : α) : List (String × α) → List (String × α)
  | [] => [(k, v)]
  | (k₀, v₀) :: rest =>
      if k₀ = k then (k, v) :: rest else (k₀, v₀) :: dictInsert k v rest

/-- The collection step of `_ServiceClass.__init__` (remote.py lines 530 to
538): start from a copy of the inherited registry, then register every
attribute of the class dictionary that carries remote-method metadata
under its name. -/
def collectRemoteMethods (baseMethods : List (String × RemoteMethodInfo))
    (dct : List (String × AttrValue)) : List (String × RemoteMethodInfo) :=
  dct.foldl
    (fun acc entry =>
      match entry.2 with
      | AttrValue.remoteMethod info => dictInsert entry.1 info acc
      | AttrValue.plainMethod => acc
      | AttrValue.nonCallable => acc)
    baseMethods

/-- The remote-method registry of a service class given the class
dictionaries of its ancestry chain, base classes first.  The chain starts
at `remote.Service` (remote.py lines 624 to 747), which declares no
remote methods of its own, so the empty chain gives the empty registry;
each subclass inherits the registry of its base and adds its own
decorated methods.  `Service.all_remote_methods` (remote.py lines 663 to
672, via the static method at lines 564 to 571) returns a copy of this
registry. -/
def all_remote_methods (dcts : List (List (String × AttrValue))) :
    List (String × RemoteMethodInfo) :=
  dcts.foldl collectRemoteMethods []

/-! ### The synchronous stub (remote.py lines 429 to 451) -/

/-- The attribute names the class body of `transport.Rpc` defines
(transport.py lines 53 to 130): the constructor-set instance attributes
are name mangled and private, and the public surface is the `request`,
`response`, `state`, `error_message` and `error_name` properties plus the
`wait`, `_wait_impl`, `set_response` and `set_status` methods (and the
mangled private `_Rpc__set_state`). -/
def rpcClassAttributes : List String :=
  ["request", "response", "state", "error_message", "error_name",
   "wait", "_wait_impl", "set_response", "set_status", "_Rpc__set_state"]

/-- Python attribute lookup on a `transport.Rpc` instance: `some` for a
defined attribute, `none` meaning `AttributeError`. -/
def rpcGetattr (name : String) : Option String :=
  if name ∈ rpcClassAttributes then some name else none

/-- The closure `sync_method` built by `_ServiceClass.__new_sync_method`
(remote.py lines 429 to 451): it calls the asynchronous method (whose
result over `transport.py` is a `transport.Rpc`, here the parameter
`rpc`) and then evaluates `rpc.get_response()`.  The attribute lookup for
`get_response` happens first; `observe` stands for the bound method that
a lookup hit would produce. -/
def sync_method (rpc : Rpc Req Msg) (observe : Rpc Req Msg → Msg) :
    Except PyErr Msg :=
  match rpcGetattr "get_response" with
  | none => Except.error (PyErr.attributeError "get_response")
  | some _ => Except.ok (observe rpc)

/-! ### `descriptor.py`: describing messages (descriptor.py lines 143 to 405)

`protorpc/messages.py` (field classes, `Variant`) is not among the
sources; the field-definition surface that `describe_field` and
`describe_message` read is modelled from the spec (section 3 and 4.1). -/

/-- The concrete field classes of `messages.py` (not among the sources),
as the spec lists the field kinds: integer, float, boolean, bytes,
string, enum and message fields. -/
inductive FieldClass where
  | integerField
  | floatField
  | booleanField
  | bytesField
  | stringField
  | enumField
  | messageField
deriving DecidableEq, Repr

/-- Wire-format variant hint of a field (`messages.Variant`, exposed as
`FieldDescriptor.Variant` at descriptor.py line 186). -/
inductive Variant where
  | DOUBLE
  | FLOAT
  | INT64
  | UINT64
  | INT32
  | BOOL
  | STRING
  | MESSAGE
  | BYTES
  | UINT32
  | ENUM
  | SINT32
  | SINT64
deriving DecidableEq, Repr

/-- A declared default value, one constructor per field class that may
carry one (the map `_DEFAULT_TO_STRING_MAP`, descriptor.py lines 132 to
140; message fields cannot have defaults).  Float and bytes defaults
carry their rendered text directly, since IEEE formatting and
`codecs.escape_encode` are not modelled. -/
inductive DefaultValue where
  | intDefault (i : Int)
  | floatDefault (text : String)
  | boolDefault (b : Bool)
  | bytesDefault (escaped : String)
  | strDefault (s : String)
  | enumDefault (number : Int)
deriving DecidableEq, Repr

/-- The stringifier `_DEFAULT_TO_STRING_MAP[type(field)]` (descriptor.py
lines 132 to 140): integers through `unicode`, booleans as "true" or
"false", strings as themselves, enums as the decimal text of their
number; float and bytes text is carried pre-rendered. -/
def defaultToString : DefaultValue → String
  | DefaultValue.intDefault i => toString i
  | DefaultValue.floatDefault text => text
  | DefaultValue.boolDefault b => if b then "true" else "false"
  | DefaultValue.bytesDefault escaped => escaped
  | DefaultValue.strDefault s => s
  | DefaultValue.enumDefault number => toString number

/-- A live field definition as `describe_field` reads it: name, number,
variant, the repeated and required flags, the referenced type's
`definition_name` for enum and message fields, and the declared default
if any. -/
structure FieldDef where
  name : String
  number : Nat
  fieldClass : FieldClass
  variant : Variant
  repeated : Bool
  required : Bool
  typeName : String
  default : Option DefaultValue
deriving DecidableEq, Repr

/-- Field label, `FieldDescriptor.Label` (descriptor.py lines 188 to 193). -/
inductive Label where
  | OPTIONAL
  | REQUIRED
  | REPEATED
deriving DecidableEq, Repr

/-- `FieldDescriptor` (descriptor.py lines 171 to 208); an attribute the
describing function leaves unset is `none`. -/
structure FieldDescriptor where
  name : String
  number : Nat
  label : Label
  variant : Variant
  type_name : Option String
  default_value : Option String
deriving DecidableEq, Repr

/-- An enum value definition as `describe_enum_value` reads it. -/
structure EnumValueDef where
  name : String
  number : Int
deriving DecidableEq, Repr

/-- `EnumValueDescriptor` (descriptor.py lines 143 to 156). -/
structure EnumValueDescriptor where
  name : String
  number : Int
deriving DecidableEq, Repr

/-- A live enum definition: its unqualified name and its values in the
order `enum_definition.numbers()` yields them. -/
structure EnumDef where
  name : String
  values : List EnumValueDef
deriving DecidableEq, Repr

/-- `EnumDescriptor` (descriptor.py lines 159 to 168). -/
structure EnumDescriptor where
  name : String
  values : Option (List EnumValueDescriptor)
deriving DecidableEq, Repr

/-- `MessageDescriptor` (descriptor.py lines 211 to 224). -/
structure MessageDescriptor where
  name : String
  fields : Option (List FieldDescriptor)
  enums : Option (List EnumDescriptor)
deriving DecidableEq, Repr

/-- A live message definition as `describe_message` reads it: the last
component of its `definition_name`, `all_fields()` in declaration order,
and the nested enum classes (`none` when the class lacks an `__enums__`
attribute). -/
structure MessageDefinition where
  name : String
  fields : List FieldDef
  enums : Option (List EnumDef)
deriving DecidableEq, Repr

/-- `describe_enum_value` (descriptor.py lines 305 to 317). -/
def describe_enum_value (v : EnumValueDef) : EnumValueDescriptor :=
  { name := v.name, number := v.number }

/-- `describe_enum` (descriptor.py lines 320 to 340): the values attribute
is set only when the enum has values. -/
def describe_enum (e : EnumDef) : EnumDescriptor :=
  { name := e.name
    values :=
      if e.values.isEmpty then none
      else some (e.values.map describe_enum_value) }

/-- `describe_field` (descriptor.py lines 343 to 372): copies name, number
and variant; sets `type_name` only for enum and message fields; renders
the default through the stringifier when one is declared; derives the
label with repeated taking precedence over required. -/
def describe_field (f : FieldDef) : FieldDescriptor :=
  { name := f.name
    number := f.number
    variant := f.variant
    type_name :=
      if f.fieldClass = FieldClass.enumField ∨
         f.fieldClass = FieldClass.messageField then some f.typeName
      else none
    default_value := f.default.map defaultToString
    label :=
      if f.repeated then Label.REPEATED
      else if f.required then Label.REQUIRED
      else Label.OPTIONAL }

/-- The ascending field-number comparison used by the sort in
`describe_message` (descriptor.py lines 387 to 388). -/
def fieldNumberLe (a b : FieldDef) : Prop :=
  a.number ≤ b.number

instance : DecidableRel fieldNumberLe :=
  fun a b => inferInstanceAs (Decidable (a.number ≤ b.number))

instance : IsTotal FieldDef fieldNumberLe :=
  ⟨fun a b => Nat.le_total a.number b.number⟩

instance : IsTrans FieldDef fieldNumberLe :=
  ⟨fun _ _ _ hab hbc => Nat.le_trans hab hbc⟩

/-- `describe_message` (descriptor.py lines 375 to 405): the fields of the
definition are sorted ascending by field number (python's stable
`sorted` with the number as key; a stable insertion sort here), each is
described, and the fields attribute is set only when there are fields;
nested enums are described when the class carries an `__enums__`
attribute. -/
def describe_message (md : MessageDefinition) : MessageDescriptor :=
  let fields := List.insertionSort fieldNumberLe md.fields
  { name := md.name
    fields :=
      if fields.isEmpty then none
      else some (fields.map describe_field)
    enums := md.enums.map (fun es => es.map describe_enum) }

/-! ## Theorems -/

/-- C2: every `Rpc` is created in state RUNNING bound to exactly one
request, `set_response` on a RUNNING `Rpc` moves it to OK, and any
subsequent `set_response` or `set_status` on an `Rpc` already in a
terminal state raises `RpcStateError` with no second transition. -/
theorem C2_rpc_single_transition (Req Msg : Type) (req : Req) (m : Msg)
    (s : RpcState) (st : RpcStatus) (run term : Rpc Req Msg)
    (hrun : run.state = RpcState.RUNNING)
    (hterm : term.state ≠ RpcState.RUNNING)
    (hst : st.state = some s) :
    (Rpc.init req : Rpc Req Msg).state = RpcState.RUNNING ∧
    (Rpc.init req : Rpc Req Msg).request = req ∧
    (Rpc.init req : Rpc Req Msg).response = none ∧
    Rpc.set_response (PyValue.message m) run =
      (Except.ok (),
       { run with response := some m, state := RpcState.OK,
                  error_message := none, error_name := none }) ∧
    (Rpc.set_response (PyValue.message m) term).1 =
      Except.error (PyErr.rpcStateError
        ("RPC must be in RUNNING state to change to " ++ RpcState.OK.name)) ∧
    (Rpc.set_response (PyValue.message m) term).2.state = term.state ∧
    Rpc.set_status st term =
      (Except.error (PyErr.rpcStateError
        ("RPC must be in RUNNING state to change to " ++ s.name)), term) := by
  refine ⟨rfl, rfl, rfl, ?_, ?_, ?_, ?_⟩ <;>
    simp [Rpc.set_response, Rpc.set_status, Rpc.setState, hrun, hterm, hst]

/-- Witness for C2 at concrete inputs: a second `set_response` on an `Rpc`
already in the terminal state OK raises `RpcStateError`. -/
theorem C2_witness :
    (Rpc.set_response (PyValue.message 2)
      ({ request := 0, response := some 1, state := RpcState.OK,
         error_message := none, error_name := none } : Rpc Nat Nat)).1 =
      Except.error (PyErr.rpcStateError
        ("RPC must be in RUNNING state to change to " ++ RpcState.OK.name)) :=
  (C2_rpc_single_transition Nat Nat 0 2 RpcState.SERVER_ERROR
    ⟨some RpcState.SERVER_ERROR, some "boom", none⟩
    (Rpc.init 0)
    { request := 0, response := some 1, state := RpcState.OK,
      error_message := none, error_name := none }
    rfl (by decide) rfl).2.2.2.2.1

/-- C9: calling `set_response` on an `Rpc` that is already terminal raises
`RpcStateError`, leaves state, error_message and error_name unchanged,
but has already overwritten the stored response with the new value. -/
theorem C9_set_response_not_atomic (Req Msg : Type) (r : Rpc Req Msg)
    (m : Msg) (h : r.state ≠ RpcState.RUNNING) :
    Rpc.set_response (PyValue.message m) r =
      (Except.error (PyErr.rpcStateError
        ("RPC must be in RUNNING state to change to " ++ RpcState.OK.name)),
       { r with response := some m }) := by
  simp [Rpc.set_response, Rpc.setState, h]

/-- Witness for C9 at a concrete input: on an `Rpc` terminal in state OK
with response 1, `set_response 2` raises and leaves response 2 behind. -/
theorem C9_witness :
    Rpc.set_response (PyValue.message 2)
      ({ request := 0, response := some 1, state := RpcState.OK,
         error_message := none, error_name := none } : Rpc Nat Nat) =
      (Except.error (PyErr.rpcStateError
        ("RPC must be in RUNNING state to change to " ++ RpcState.OK.name)),
       { request := 0, response := some 2, state := RpcState.OK,
         error_message := none, error_name := none }) :=
  C9_set_response_not_atomic Nat Nat
    { request := 0, response := some 1, state := RpcState.OK,
      error_message := none, error_name := none } 2 (by decide)

/-- C10: `wait` invokes the blocking `_wait_impl` exactly when the state is
RUNNING; on a terminal `Rpc`, `wait` and the response, error_message and
error_name accessors never invoke `_wait_impl` and return the stored
values immediately. -/
theorem C10_wait_only_while_running (Req Msg : Type)
    (impl : Rpc Req Msg → Rpc Req Msg) (r : Rpc Req Msg)
    (h : r.state ≠ RpcState.RUNNING) :
    Rpc.wait impl r = (r, 0) ∧
    Rpc.response_prop impl r = (r.response, 0) ∧
    Rpc.error_message_prop impl r = (r.error_message, 0) ∧
    Rpc.error_name_prop impl r = (r.error_name, 0) ∧
    (∀ r₂ : Rpc Req Msg, r₂.state = RpcState.RUNNING →
      Rpc.wait impl r₂ = (impl r₂, 1)) := by
  refine ⟨?_, ?_, ?_, ?_, ?_⟩ <;>
    simp [Rpc.wait, Rpc.response_prop, Rpc.error_message_prop,
          Rpc.error_name_prop, h]

/-- Witness for C10 at a concrete input: on an `Rpc` terminal in OK, `wait`
performs zero `_wait_impl` invocations and the object is unchanged. -/
theorem C10_witness :
    Rpc.wait (fun r => r)
      ({ request := 0, response := some 1, state := RpcState.OK,
         error_message := none, error_name := none } : Rpc Nat Nat) =
      ({ request := 0, response := some 1, state := RpcState.OK,
         error_message := none, error_name := none }, 0) :=
  (C10_wait_only_while_running Nat Nat (fun r => r)
    { request := 0, response := some 1, state := RpcState.OK,
      error_message := none, error_name := none } (by decide)).1

/-- Helper: the boolean initialization check agrees with
`check_initialized` succeeding. -/
theorem MessageValue.check_initialized_ok_iff (m : MessageValue V) :
    m.check_initialized = Except.ok () ↔ m.isInitialized = true := by
  unfold MessageValue.check_initialized MessageValue.isInitialized
  cases hf : m.fields.find? (fun f => f.required && f.value.isNone) with
  | none =>
      simp only [List.find?_eq_none] at hf
      simp only [List.all_eq_true]
      constructor
      · intro _ f hfm
        have := hf f hfm
        cases hv : f.value <;> cases hr : f.required <;> simp_all
      · intro _
        trivial
  | some f =>
      have hmem := List.find?_some hf
      have hfm := List.mem_of_find?_eq_some hf
      simp only [List.all_eq_true]
      constructor
      · intro h
        cases h
      · intro hall
        have := hall f hfm
        cases hv : f.value <;> cases hr : f.required <;> simp_all

/-- C6: `Transport.send_rpc` validates that the request is fully populated
before any transmission is attempted: an incomplete request raises a
validation error locally, before the backend call-start operation
`_start_rpc` runs (empty operation trace, result independent of the
backend), while an initialized request is handed to `_start_rpc`. -/
theorem C6_send_rpc_validates_first (V Msg : Type)
    (start : MessageValue V → Rpc (MessageValue V) Msg)
    (request : MessageValue V) (h : request.isInitialized = false) :
    (∃ msg, (Transport.send_rpc start request).1 =
      Except.error (PyErr.validationError msg)) ∧
    (Transport.send_rpc start request).2 = [] ∧
    (∀ start₂ : MessageValue V → Rpc (MessageValue V) Msg,
      Transport.send_rpc start₂ request = Transport.send_rpc start request) ∧
    (∀ request₂ : MessageValue V, request₂.isInitialized = true →
      Transport.send_rpc start request₂ =
        (Except.ok (start request₂), [TransportOp.startRpc])) := by
  have hni : request.check_initialized ≠ Except.ok () := by
    intro hok
    rw [(MessageValue.check_initialized_ok_iff request).mp hok] at h
    cases h
  refine ⟨?_, ?_, ?_, ?_⟩
  · unfold Transport.send_rpc
    cases hc : request.check_initialized with
    | error e =>
        unfold MessageValue.check_initialized at hc
        cases hf : request.fields.find? (fun f => f.required && f.value.isNone) with
        | none => rw [hf] at hc; cases hc
        | some f =>
            rw [hf] at hc
            refine ⟨"Message is missing required field " ++ f.name, ?_⟩
            simp_all
    | ok u => cases u; exact absurd hc hni
  · unfold Transport.send_rpc
    cases hc : request.check_initialized with
    | error e => rfl
    | ok u => cases u; exact absurd hc hni
  · intro start₂
    unfold Transport.send_rpc
    cases hc : request.check_initialized with
    | error e => rfl
    | ok u => cases u; exact absurd hc hni
  · intro request₂ h₂
    have hok := (MessageValue.check_initialized_ok_iff request₂).mpr h₂
    unfold Transport.send_rpc
    rw [hok]

/-- Witness for C6 at a concrete input: a request with an unset required
field produces an empty backend operation trace, so `_start_rpc` never
ran. -/
theorem C6_witness :
    (Transport.send_rpc
      (fun req => (Rpc.init req : Rpc (MessageValue Nat) Nat))
      ({ fields := [{ name := "value", required := true, value := none }] } :
        MessageValue Nat)).2 = [] :=
  (C6_send_rpc_validates_first Nat Nat
    (fun req => (Rpc.init req : Rpc (MessageValue Nat) Nat))
    { fields := [{ name := "value", required := true, value := none }] }
    (by decide)).2.1

/-- C1 (code_bug evaluation): pointing the urllib HTTP transport at a
server answering HTTP 500 whose decoded status is SERVER_ERROR with
message "boom" makes `wait` itself raise `remote.ServerError("boom")`
(propagated out of `wait_impl` by `check_rpc_status`), instead of
returning with the `Rpc` resolved to the terminal state SERVER_ERROR as
the claim (and transport_test.py testHttpError, testErrorWithContent)
require. -/
theorem C1_wait_raises_instead_of_resolving :
    http_rpc_wait
      ({ CONTENT_TYPE := "application/json"
         decodeRpcStatus := fun s =>
           if s = "\x7b\"state\": \"SERVER_ERROR\", \"error_message\": \"boom\"\x7d"
           then some { state := some RpcState.SERVER_ERROR,
                       error_message := some "boom", error_name := none }
           else none
         decodeResponse := fun _ =>
           Except.error (PyErr.validationError "not reached") } : Protocol Nat)
      (UrlOpenResult.httpError 500
        "\x7b\"state\": \"SERVER_ERROR\", \"error_message\": \"boom\"\x7d"
        (some "application/json")
        "\x7b\"state\": \"SERVER_ERROR\", \"error_message\": \"boom\"\x7d")
      (HttpTransport.start_rpc 0 : Rpc Nat Nat) =
    Except.error (PyErr.serverError (some "boom") none) := by
  rfl

/-- C3 (code_bug evaluation): a synchronous stub method call evaluates
`rpc.get_response()` on the `transport.Rpc` the asynchronous method
returned; `transport.Rpc` defines no `get_response` attribute, so every
synchronous call raises `AttributeError` instead of returning the
terminal response. -/
theorem C3_sync_method_attribute_error (Req Msg : Type) (rpc : Rpc Req Msg)
    (observe : Rpc Req Msg → Msg) :
    sync_method rpc observe =
      Except.error (PyErr.attributeError "get_response") := by
  have h : rpcGetattr "get_response" = none := by decide
  simp [sync_method, h]

/-- C4 (counterexample): re-declaring an override with the remote-method
decorator using exactly the parent's request/response type pair, which
the claim says is not a definition error, still raises
`ServiceDefinitionError`: the metaclass rejects any decorated override,
matching types or not. -/
theorem C4_counterexample :
    serviceClassNew "MyService" [("m", { request_type := "Req", response_type := "Resp" })]
        [("m", AttrValue.remoteMethod { request_type := "Req", response_type := "Resp" })] =
      Except.error (PyErr.serviceDefinitionError
        ("Do not use remote decorator when overloading remote method " ++
         "m" ++ " on service " ++ "MyService" ++ ".")) := by
  rfl

/-- C4 (amended): overriding an inherited remote method with a plain
callable reuses the parent's request/response types automatically;
`ServiceDefinitionError` is raised exactly when the override is
re-declared with the remote-method decorator at all (whatever type pair
it declares) or is overridden with a non-callable; attributes that
override nothing pass through unchanged. -/
theorem C4_override_rules (clsName attrName : String)
    (info : RemoteMethodInfo) (base : List (String × RemoteMethodInfo))
    (v : AttrValue) (hbase : List.lookup attrName base = some info) :
    processOverride clsName base (attrName, AttrValue.plainMethod) =
      Except.ok (attrName, AttrValue.remoteMethod info) ∧
    (∀ info₂, processOverride clsName base
        (attrName, AttrValue.remoteMethod info₂) =
      Except.error (PyErr.serviceDefinitionError
        ("Do not use remote decorator when overloading remote method " ++
         attrName ++ " on service " ++ clsName ++ "."))) ∧
    processOverride clsName base (attrName, AttrValue.nonCallable) =
      Except.error (PyErr.serviceDefinitionError
        ("Must override " ++ attrName ++ " in " ++ clsName ++
         " with a method.")) ∧
    ((∃ e, processOverride clsName base (attrName, v) = Except.error e) ↔
      v ≠ AttrValue.plainMethod) ∧
    (∀ attr₂ v₂, List.lookup attr₂ base = none →
      processOverride clsName base (attr₂, v₂) = Except.ok (attr₂, v₂)) ∧
    serviceClassNew clsName base [(attrName, AttrValue.plainMethod)] =
      Except.ok [(attrName, AttrValue.remoteMethod info)] := by
  refine ⟨?_, ?_, ?_, ?_, ?_, ?_⟩
  · simp [processOverride, hbase]
  · intro info₂
    simp [processOverride, hbase]
  · simp [processOverride, hbase]
  · cases v <;> simp [processOverride, hbase]
  · intro attr₂ v₂ hnone
    simp [processOverride, hnone]
  · simp [serviceClassNew, List.mapM, List.mapM.loop, processOverride, hbase]

/-- Witness for C4 (amended) at concrete inputs: a plain override of an
inherited remote method is re-wrapped with the parent's types. -/
theorem C4_witness :
    processOverride "SubService"
      [("m", { request_type := "Req", response_type := "Resp" })]
      ("m", AttrValue.plainMethod) =
    Except.ok ("m", AttrValue.remoteMethod
      { request_type := "Req", response_type := "Resp" }) :=
  (C4_override_rules "SubService" "m"
    { request_type := "Req", response_type := "Resp" }
    [("m", { request_type := "Req", response_type := "Resp" })]
    AttrValue.plainMethod rfl).1

/-- C5 (counterexample): a request that is an instance of a proper
subclass of the declared request type is not an instance of exactly the
declared type, yet `invoke_remote_method` raises no
`InvalidRequestError`; the user implementation runs (count 1) and its
response is returned, because the code checks python `isinstance`,
which accepts subclasses. -/
theorem C5_counterexample :
    ({ ancestry := ["ChildRequest", "SimpleRequest", "Message", "object"],
       val := 7 } : PyObj).typeName ≠ "SimpleRequest" ∧
    invoke_remote_method
      { request_type := "SimpleRequest", response_type := "SimpleResponse" }
      "remote_method"
      (fun _ _ => { ancestry := ["SimpleResponse", "Message", "object"],
                    val := 1 })
      { ancestry := ["BasicService", "object"], val := 0 }
      { ancestry := ["ChildRequest", "SimpleRequest", "Message", "object"],
        val := 7 } =
      (Except.ok { ancestry := ["SimpleResponse", "Message", "object"],
                   val := 1 }, 1) := by
  refine ⟨by decide, by rfl⟩

/-- C5 (amended): invoking a registered remote method checks, before the
user implementation runs, that the request satisfies python `isinstance`
of the declared request type, i.e. is an instance of that type or of a
subclass (raising `InvalidRequestError` otherwise with the
implementation never run), and after the implementation returns checks
that the returned value satisfies `isinstance` of the declared response
type (raising `InvalidResponseError` otherwise). -/
theorem C5_invocation_type_checks (info : RemoteMethodInfo)
    (method_name : String) (impl : PyObj → PyObj → PyObj)
    (self request : PyObj) :
    (request.isinstance info.request_type = false →
      invoke_remote_method info method_name impl self request =
        (Except.error (PyErr.invalidRequestError
          ("Method " ++ self.typeName ++ "." ++ method_name ++
           " expected request type " ++ info.request_type ++
           ", received " ++ request.typeName)), 0)) ∧
    (request.isinstance info.request_type = true →
      (impl self request).isinstance info.response_type = false →
      invoke_remote_method info method_name impl self request =
        (Except.error (PyErr.invalidResponseError
          ("Method " ++ self.typeName ++ "." ++ method_name ++
           " expected response type " ++ info.response_type ++
           ", sent " ++ (impl self request).typeName)), 1)) ∧
    (request.isinstance info.request_type = true →
      (impl self request).isinstance info.response_type = true →
      invoke_remote_method info method_name impl self request =
        (Except.ok (impl self request), 1)) := by
  refine ⟨?_, ?_, ?_⟩
  · intro h₁
    simp [invoke_remote_method, h₁]
  · intro h₁ h₂
    simp [invoke_remote_method, h₁, h₂]
  · intro h₁ h₂
    simp [invoke_remote_method, h₁, h₂]

/-- Witness for C5 (amended) at concrete inputs: a request of a wrong,
unrelated type is rejected with `InvalidRequestError` before the user
implementation runs. -/
theorem C5_witness :
    invoke_remote_method
      { request_type := "SimpleRequest", response_type := "SimpleResponse" }
      "remote_method"
      (fun _ _ => { ancestry := ["SimpleResponse", "Message", "object"],
                    val := 1 })
      { ancestry := ["BasicService", "object"], val := 0 }
      { ancestry := ["SimpleResponse", "Message", "object"], val := 9 } =
      (Except.error (PyErr.invalidRequestError
        ("Method " ++ "BasicService" ++ "." ++ "remote_method" ++
         " expected request type " ++ "SimpleRequest" ++
         ", received " ++ "SimpleResponse")), 0) :=
  (C5_invocation_type_checks
    { request_type := "SimpleRequest", response_type := "SimpleResponse" }
    "remote_method"
    (fun _ _ => { ancestry := ["SimpleResponse", "Message", "object"],
                  val := 1 })
    { ancestry := ["BasicService", "object"], val := 0 }
    { ancestry := ["SimpleResponse", "Message", "object"], val := 9 }).1
    (by decide)

/-- C7: for every message definition, `describe_message` returns a
descriptor whose fields sequence is sorted ascending by field number,
whatever the declaration order; moreover that sequence is exactly a
permutation of the described declared fields, so the sort only
reorders. -/
theorem C7_describe_message_fields_sorted (md : MessageDefinition)
    (l : List FieldDescriptor) (h : (describe_message md).fields = some l) :
    List.Sorted (fun a b : FieldDescriptor => a.number ≤ b.number) l ∧
    l.Perm (md.fields.map describe_field) := by
  unfold describe_message at h
  by_cases he : (List.insertionSort fieldNumberLe md.fields).isEmpty
  · simp [he] at h
  · simp only [he, if_false] at h
    have hl : l = (List.insertionSort fieldNumberLe md.fields).map describe_field := by
      exact (Option.some.injEq _ _ ▸ h).symm
    subst hl
    constructor
    · have hs : List.Sorted fieldNumberLe
          (List.insertionSort fieldNumberLe md.fields) :=
        List.sorted_insertionSort fieldNumberLe md.fields
      exact List.Pairwise.map describe_field (fun a b hab => hab) hs
    · exact (List.perm_insertionSort fieldNumberLe md.fields).map describe_field

/-- Witness for C7 at a concrete input: a message declaring fields with
numbers 3, 1, 2 in that order is described with its fields in the order
1, 2, 3. -/
theorem C7_witness :
    List.Sorted (fun a b : FieldDescriptor => a.number ≤ b.number)
      [{ name := "x", number := 1, label := Label.REQUIRED,
         variant := Variant.INT64, type_name := none, default_value := none },
       { name := "y", number := 2, label := Label.REQUIRED,
         variant := Variant.INT64, type_name := none, default_value := none },
       { name := "color", number := 3, label := Label.OPTIONAL,
         variant := Variant.BYTES, type_name := none,
         default_value := none }] ∧
    List.Perm
      [{ name := "x", number := 1, label := Label.REQUIRED,
         variant := Variant.INT64, type_name := none, default_value := none },
       { name := "y", number := 2, label := Label.REQUIRED,
         variant := Variant.INT64, type_name := none, default_value := none },
       { name := "color", number := 3, label := Label.OPTIONAL,
         variant := Variant.BYTES, type_name := none,
         default_value := none }]
      (List.map describe_field
        [{ name := "color", number := 3, fieldClass := FieldClass.bytesField,
           variant := Variant.BYTES, repeated := false, required := false,
           typeName := "", default := none },
         { name := "x", number := 1, fieldClass := FieldClass.integerField,
           variant := Variant.INT64, repeated := false, required := true,
           typeName := "", default := none },
         { name := "y", number := 2, fieldClass := FieldClass.integerField,
           variant := Variant.INT64, repeated := false, required := true,
           typeName := "", default := none }]) :=
  C7_describe_message_fields_sorted
    { name := "Pixel"
      fields :=
        [{ name := "color", number := 3, fieldClass := FieldClass.bytesField,
           variant := Variant.BYTES, repeated := false, required := false,
           typeName := "", default := none },
         { name := "x", number := 1, fieldClass := FieldClass.integerField,
           variant := Variant.INT64, repeated := false, required := true,
           typeName := "", default := none },
         { name := "y", number := 2, fieldClass := FieldClass.integerField,
           variant := Variant.INT64, repeated := false, required := true,
           typeName := "", default := none }]
      enums := none }
    [{ name := "x", number := 1, label := Label.REQUIRED,
       variant := Variant.INT64, type_name := none, default_value := none },
     { name := "y", number := 2, label := Label.REQUIRED,
       variant := Variant.INT64, type_name := none, default_value := none },
     { name := "color", number := 3, label := Label.OPTIONAL,
       variant := Variant.BYTES, type_name := none, default_value := none }]
    (by rfl)

/-- Helper: a key is present after a dict assignment exactly when it is
the assigned key or was present before. -/
theorem mem_keys_dictInsert (k : String) (v : α) (d : List (String × α))
    (name : String) :
    (∃ w, (name, w) ∈ dictInsert k v d) ↔ name = k ∨ ∃ w, (name, w) ∈ d := by
  induction d with
  | nil =>
      constructor
      · rintro ⟨w, hw⟩
        rcases List.mem_singleton.mp hw with hw₁
        injection hw₁ with h₁ h₂
        exact Or.inl h₁
      · rintro (h | ⟨w, hw⟩)
        · subst h
          exact ⟨v, List.mem_singleton.mpr rfl⟩
        · cases hw
  | cons hd tl ih =>
      obtain ⟨k₀, v₀⟩ := hd
      by_cases hk : k₀ = k
      · have hins : dictInsert k v ((k₀, v₀) :: tl) = (k, v) :: tl := by
          simp [dictInsert, hk]
        rw [hins]
        constructor
        · rintro ⟨w, hw⟩
          rcases List.mem_cons.mp hw with heq | htl
          · injection heq with h₁ h₂
            exact Or.inl h₁
          · exact Or.inr ⟨w, List.mem_cons_of_mem _ htl⟩
        · rintro (h | ⟨w, hw⟩)
          · subst h
            exact ⟨v, List.mem_cons_self _ _⟩
          · rcases List.mem_cons.mp hw with heq | htl
            · injection heq with h₁ h₂
              exact ⟨v, by rw [h₁, hk]; exact List.mem_cons_self _ _⟩
            · exact ⟨w, List.mem_cons_of_mem _ htl⟩
      · have hins : dictInsert k v ((k₀, v₀) :: tl) =
            (k₀, v₀) :: dictInsert k v tl := by
          simp [dictInsert, hk]
        rw [hins]
        constructor
        · rintro ⟨w, hw⟩
          rcases List.mem_cons.mp hw with heq | htl
          · injection heq with h₁ h₂
            subst h₁
            exact Or.inr ⟨v₀, by subst h₂; exact List.mem_cons_self _ _⟩
          · rcases ih.mp ⟨w, htl⟩ with h | ⟨w₂, hw₂⟩
            · exact Or.inl h
            · exact Or.inr ⟨w₂, List.mem_cons_of_mem _ hw₂⟩
        · rintro (h | ⟨w, hw⟩)
          · obtain ⟨w₂, hw₂⟩ := ih.mpr (Or.inl h)
            exact ⟨w₂, List.mem_cons_of_mem _ hw₂⟩
          · rcases List.mem_cons.mp hw with heq | htl
            · injection heq with h₁ h₂
              subst h₁
              subst h₂
              exact ⟨w, List.mem_cons_self _ _⟩
            · obtain ⟨w₂, hw₂⟩ := ih.mpr (Or.inr ⟨w, htl⟩)
              exact ⟨w₂, List.mem_cons_of_mem _ hw₂⟩

/-- Helper: a name is a key of the registry built by the collection step
exactly when it is a key of the inherited registry or is declared with
remote-method metadata in the class dictionary. -/
theorem mem_keys_collectRemoteMethods
    (base : List (String × RemoteMethodInfo))
    (dct : List (String × AttrValue)) (name : String) :
    (∃ w, (name, w) ∈ collectRemoteMethods base dct) ↔
      (∃ w, (name, w) ∈ base) ∨
      (∃ info, (name, AttrValue.remoteMethod info) ∈ dct) := by
  induction dct generalizing base with
  | nil => simp [collectRemoteMethods]
  | cons hd tl ih =>
      obtain ⟨a, v⟩ := hd
      cases v with
      | remoteMethod info =>
          have hstep : collectRemoteMethods base
              ((a, AttrValue.remoteMethod info) :: tl) =
              collectRemoteMethods (dictInsert a info base) tl := rfl
          rw [hstep, ih, mem_keys_dictInsert]
          constructor
          · rintro ((h | hb) | ⟨i, hi⟩)
            · subst h
              exact Or.inr ⟨info, List.mem_cons_self _ _⟩
            · exact Or.inl hb
            · exact Or.inr ⟨i, List.mem_cons_of_mem _ hi⟩
          · rintro (hb | ⟨i, hi⟩)
            · exact Or.inl (Or.inr hb)
            · rcases List.mem_cons.mp hi with heq | htl
              · injection heq with h₁ h₂
                exact Or.inl (Or.inl h₁)
              · exact Or.inr ⟨i, htl⟩
      | plainMethod =>
          have hstep : collectRemoteMethods base
              ((a, AttrValue.plainMethod) :: tl) =
              collectRemoteMethods base tl := rfl
          rw [hstep, ih]
          constructor
          · rintro (hb | ⟨i, hi⟩)
            · exact Or.inl hb
            · exact Or.inr ⟨i, List.mem_cons_of_mem _ hi⟩
          · rintro (hb | ⟨i, hi⟩)
            · exact Or.inl hb
            · rcases List.mem_cons.mp hi with heq | htl
              · injection heq with h₁ h₂
                exact AttrValue.noConfusion h₂
              · exact Or.inr ⟨i, htl⟩
      | nonCallable =>
          have hstep : collectRemoteMethods base
              ((a, AttrValue.nonCallable) :: tl) =
              collectRemoteMethods base tl := rfl
          rw [hstep, ih]
          constructor
          · rintro (hb | ⟨i, hi⟩)
            · exact Or.inl hb
            · exact Or.inr ⟨i, List.mem_cons_of_mem _ hi⟩
          · rintro (hb | ⟨i, hi⟩)
            · exact Or.inl hb
            · rcases List.mem_cons.mp hi with heq | htl
              · injection heq with h₁ h₂
                exact AttrValue.noConfusion h₂
              · exact Or.inr ⟨i, htl⟩

/-- Helper: key membership for the registry folded over a whole ancestry
chain of class dictionaries. -/
theorem mem_keys_foldl_collect (dcts : List (List (String × AttrValue)))
    (base : List (String × RemoteMethodInfo)) (name : String) :
    (∃ w, (name, w) ∈ dcts.foldl collectRemoteMethods base) ↔
      (∃ w, (name, w) ∈ base) ∨
      (∃ dct ∈ dcts, ∃ info, (name, AttrValue.remoteMethod info) ∈ dct) := by
  induction dcts generalizing base with
  | nil => simp
  | cons d rest ih =>
      rw [List.foldl_cons, ih, mem_keys_collectRemoteMethods]
      constructor
      · rintro ((hb | hd) | ⟨dct, hdct, hp⟩)
        · exact Or.inl hb
        · exact Or.inr ⟨d, List.mem_cons_self _ _, hd⟩
        · exact Or.inr ⟨dct, List.mem_cons_of_mem _ hdct, hp⟩
      · rintro (hb | ⟨dct, hdct, hp⟩)
        · exact Or.inl (Or.inl hb)
        · rcases List.mem_cons.mp hdct with heq | htl
          · subst heq
            exact Or.inl (Or.inr hp)
          · exact Or.inr ⟨dct, htl, hp⟩

/-- C8: `all_remote_methods` holds exactly the methods declared with
remote-method metadata on the class or inherited from base service
classes: a name is registered iff some class dictionary in the ancestry
chain declares it with metadata; a service declaring only `m` yields
exactly the registry for `m`, a subclass adding `n` yields exactly the
registries for `m` and `n`; and the built-in reflection method
`get_descriptor` is never included when no class declares it as
remote (the `remote.Service` base in the sources declares no remote
methods at all). -/
theorem C8_all_remote_methods_exact (dcts : List (List (String × AttrValue))) :
    (∀ name : String,
      (∃ info, (name, info) ∈ all_remote_methods dcts) ↔
      (∃ dct ∈ dcts, ∃ info, (name, AttrValue.remoteMethod info) ∈ dct)) ∧
    ((∀ dct ∈ dcts, ∀ info : RemoteMethodInfo,
        ("get_descriptor", AttrValue.remoteMethod info) ∉ dct) →
      ∀ info : RemoteMethodInfo,
        ("get_descriptor", info) ∉ all_remote_methods dcts) ∧
    all_remote_methods
        [[("m", AttrValue.remoteMethod
            { request_type := "Request", response_type := "Response" })]] =
      [("m", { request_type := "Request", response_type := "Response" })] ∧
    all_remote_methods
        [[("m", AttrValue.remoteMethod
            { request_type := "Request", response_type := "Response" })],
         [("n", AttrValue.remoteMethod
            { request_type := "OtherRequest",
              response_type := "OtherResponse" })]] =
      [("m", { request_type := "Request", response_type := "Response" }),
       ("n", { request_type := "OtherRequest",
               response_type := "OtherResponse" })] := by
  have hkeys : ∀ name : String,
      (∃ info, (name, info) ∈ all_remote_methods dcts) ↔
      (∃ dct ∈ dcts, ∃ info, (name, AttrValue.remoteMethod info) ∈ dct) := by
    intro name
    unfold all_remote_methods
    rw [mem_keys_foldl_collect]
    simp
  refine ⟨hkeys, ?_, rfl, rfl⟩
  intro hnone info hmem
  obtain ⟨dct, hdct, info₂, hmem₂⟩ := (hkeys "get_descriptor").mp ⟨info, hmem⟩
  exact hnone dct hdct info₂ hmem₂

/-- Witness for C8 at a concrete input: the reflection method name is not
registered for a service declaring only the remote method `m`. -/
theorem C8_witness :
    ("get_descriptor",
      ({ request_type := "Request", response_type := "Response" } :
        RemoteMethodInfo)) ∉
    all_remote_methods
      [[("m", AttrValue.remoteMethod
          { request_type := "Request", response_type := "Response" })]] :=
  (C8_all_remote_methods_exact
    [[("m", AttrValue.remoteMethod
        { request_type := "Request", response_type := "Response" })]]).2.1
    (by simp)
    { request_type := "Request", response_type := "Response" }

end ProtoRpc
